import Mathlib

/-!
Verification of the Qube-Native Token Pixel Runtime (qube_runtime.py).

Shallow embedding notes:
* Python floats are idealised as exact rationals, except the phase-quadrant
  computation, which involves pi and is idealised over the reals.
* JSON values are modelled by the inductive type Json; json.loads is modelled
  by pyLoads, a fuel-bounded recursive-descent reader of the JSON grammar that
  Python json.loads accepts (numbers read exactly, as rationals).
* A Python exception that a component can let escape is modelled with Except;
  exceptions that a component always catches internally are modelled by Option
  or by the substituted default value, following the source.
-/

/-- A JSON value as produced by json.loads.  Objects keep document order and
have unique keys, as Python dicts do. -/
inductive Json where
  | null : Json
  | bool (b : Bool) : Json
  | num (q : ℚ) : Json
  | str (s : String) : Json
  | arr (elems : List Json) : Json
  | obj (fields : List (String × Json)) : Json

/-- The Python exceptions that can cross component boundaries in the
deserializer: KeyError (caught by parse) and TypeError (not caught). -/
inductive PyErr where
  | keyError (key : String) : PyErr
  | typeError : PyErr
deriving DecidableEq

-- ---------------------------------------------------------------------------
-- Python string helpers
-- ---------------------------------------------------------------------------

/-- Whitespace stripped by Python str.strip (ASCII part). -/
def isPySpace (c : Char) : Bool :=
  c = ' ' || c = '\t' || c = '\n' || c = '\r' || c = '\x0b' || c = '\x0c'

/-- Python str.strip(). -/
def pyStrip (s : String) : String :=
  String.mk (((s.toList.dropWhile isPySpace).reverse.dropWhile isPySpace).reverse)

/-- Does the list start with the given pattern? -/
def listStartsWith : List Char → List Char → Bool
  | [], _ => true
  | _ :: _, [] => false
  | p :: ps, c :: cs => p = c && listStartsWith ps cs

/-- Worker for pySplit; fuel bounds the recursion. -/
def pySplitAux (sep : List Char) : Nat → List Char → List (List Char)
  | 0, cs => [cs]
  | fuel + 1, cs =>
    if listStartsWith sep cs && !sep.isEmpty then
      [] :: pySplitAux sep fuel (cs.drop sep.length)
    else
      match cs with
      | [] => [[]]
      | c :: cs' =>
        match pySplitAux sep fuel cs' with
        | [] => [[c]]
        | s :: rest => (c :: s) :: rest

/-- Python str.split(sep) for a non-empty separator: splits on every
non-overlapping occurrence, keeping empty segments. -/
def pySplit (s sep : String) : List String :=
  (pySplitAux sep.toList (s.length + 1) s.toList).map String.mk

/-- Value of a decimal digit run with Python underscore rules
(single underscores allowed between digits only); none if invalid. -/
def decDigitsVal (acc : Nat) : List Char → Option Nat
  | [] => some acc
  | '_' :: c :: cs =>
    if c.isDigit then decDigitsVal (acc * 10 + (c.toNat - 48)) cs else none
  | '_' :: [] => none
  | c :: cs =>
    if c.isDigit then decDigitsVal (acc * 10 + (c.toNat - 48)) cs else none

/-- Python int(s) for base 10 (ASCII digits): strip whitespace, optional
sign, then digits; none models ValueError. -/
def pyInt? (s : String) : Option Int :=
  let cs := ((s.toList.dropWhile isPySpace).reverse.dropWhile isPySpace).reverse
  match cs with
  | '+' :: c :: rest =>
    if c.isDigit then (decDigitsVal (c.toNat - 48) rest).map Int.ofNat else none
  | '-' :: c :: rest =>
    if c.isDigit then (decDigitsVal (c.toNat - 48) rest).map (fun n => -(n : Int))
    else none
  | c :: rest =>
    if c.isDigit then (decDigitsVal (c.toNat - 48) rest).map Int.ofNat else none
  | [] => none

/-- Value of a hexadecimal digit, if any. -/
def hexVal? (c : Char) : Option Nat :=
  if '0' ≤ c ∧ c ≤ '9' then some (c.toNat - 48)
  else if 'a' ≤ c ∧ c ≤ 'f' then some (c.toNat - 87)
  else if 'A' ≤ c ∧ c ≤ 'F' then some (c.toNat - 55)
  else none

/-- Hex digit run with Python underscore rules. -/
def hexDigitsVal (acc : Nat) : List Char → Option Nat
  | [] => some acc
  | '_' :: c :: cs =>
    match hexVal? c with
    | some v => hexDigitsVal (acc * 16 + v) cs
    | none => none
  | '_' :: [] => none
  | c :: cs =>
    match hexVal? c with
    | some v => hexDigitsVal (acc * 16 + v) cs
    | none => none

/-- Hex digit body after sign and optional 0x prefix: an optional leading
underscore is allowed right after the prefix (Python literal grammar). -/
def hexBody (afterMarker : Bool) : List Char → Option Nat
  | '_' :: c :: cs =>
    if afterMarker then
      match hexVal? c with
      | some v => hexDigitsVal v cs
      | none => none
    else none
  | c :: cs =>
    match hexVal? c with
    | some v => hexDigitsVal v cs
    | none => none
  | [] => none

/-- Python int(s, 16): strip whitespace, optional sign, optional 0x/0X
marker, hex digits; none models ValueError. -/
def pyIntHex? (s : String) : Option Int :=
  let cs := ((s.toList.dropWhile isPySpace).reverse.dropWhile isPySpace).reverse
  let signed : Bool × List Char :=
    match cs with
    | '+' :: rest => (false, rest)
    | '-' :: rest => (true, rest)
    | rest => (false, rest)
  let body : Option Nat :=
    match signed.2 with
    | '0' :: 'x' :: rest => hexBody true rest
    | '0' :: 'X' :: rest => hexBody true rest
    | rest => hexBody false rest
  body.map (fun n => if signed.1 then -(n : Int) else (n : Int))

-- ---------------------------------------------------------------------------
-- json.loads model
-- ---------------------------------------------------------------------------

/-- Whitespace skipped between JSON tokens. -/
def isJsonWs (c : Char) : Bool :=
  c = ' ' || c = '\t' || c = '\n' || c = '\r'

/-- Skip inter-token whitespace. -/
def skipWs (cs : List Char) : List Char := cs.dropWhile isJsonWs

/-- Leading decimal digits of a character list, and the rest. -/
def digitsSpan (cs : List Char) : List Char × List Char :=
  (cs.takeWhile Char.isDigit, cs.dropWhile Char.isDigit)

/-- Numeric value of a list of decimal digits. -/
def natOfDigits (ds : List Char) : Nat :=
  ds.foldl (fun a c => a * 10 + (c.toNat - 48)) 0

/-- Read a JSON number (sign, integer part without leading zeros, optional
fraction, optional exponent), exactly, as a rational. -/
def jsonNumber (cs : List Char) : Option (ℚ × List Char) :=
  let signSplit : Bool × List Char :=
    match cs with
    | '-' :: r => (true, r)
    | _ => (false, cs)
  let neg := signSplit.1
  let cs1 := signSplit.2
  match cs1 with
  | [] => none
  | c0 :: _ =>
    if c0.isDigit then
      let intSplit : List Char × List Char :=
        match cs1 with
        | '0' :: r => (['0'], r)
        | _ => digitsSpan cs1
      let intDs := intSplit.1
      let rest1 := intSplit.2
      let fracSplit : List Char × List Char :=
        match rest1 with
        | '.' :: r =>
          let ds := digitsSpan r
          if ds.1.isEmpty then ([], rest1) else ds
        | _ => ([], rest1)
      let fracDs := fracSplit.1
      let rest2 := fracSplit.2
      let expSplit : Int × List Char × List Char :=
        match rest2 with
        | 'e' :: '+' :: r | 'E' :: '+' :: r =>
          let ds := digitsSpan r
          if ds.1.isEmpty then (0, [], rest2) else ((natOfDigits ds.1 : Int), ds.1, ds.2)
        | 'e' :: '-' :: r | 'E' :: '-' :: r =>
          let ds := digitsSpan r
          if ds.1.isEmpty then (0, [], rest2) else (-(natOfDigits ds.1 : Int), ds.1, ds.2)
        | 'e' :: r | 'E' :: r =>
          let ds := digitsSpan r
          if ds.1.isEmpty then (0, [], rest2) else ((natOfDigits ds.1 : Int), ds.1, ds.2)
        | _ => (0, [], rest2)
      let e := expSplit.1
      let rest3 := expSplit.2.2
      let mant : ℚ := (natOfDigits intDs : ℚ) + (natOfDigits fracDs : ℚ) / (10 ^ fracDs.length : ℚ)
      let signedMant : ℚ := if neg then -mant else mant
      let value : ℚ :=
        if 0 ≤ e then signedMant * 10 ^ e.toNat else signedMant / 10 ^ (-e).toNat
      some (value, rest3)
    else none

/-- Read the remainder of a JSON string after the opening quote; returns the
content characters and the rest after the closing quote. -/
def jsonStringRest : Nat → List Char → Option (List Char × List Char)
  | 0, _ => none
  | _, [] => none
  | fuel + 1, c :: rest =>
    if c = '\"' then some ([], rest)
    else if c = '\\' then
      match rest with
      | [] => none
      | e :: rest2 =>
        let esc? : Option (Char × List Char) :=
          if e = '\"' then some ('\"', rest2)
          else if e = '\\' then some ('\\', rest2)
          else if e = '/' then some ('/', rest2)
          else if e = 'b' then some ('\x08', rest2)
          else if e = 'f' then some ('\x0c', rest2)
          else if e = 'n' then some ('\n', rest2)
          else if e = 'r' then some ('\r', rest2)
          else if e = 't' then some ('\t', rest2)
          else if e = 'u' then
            match rest2 with
            | h1 :: h2 :: h3 :: h4 :: rest3 =>
              match hexVal? h1, hexVal? h2, hexVal? h3, hexVal? h4 with
              | some a, some b, some c2, some d =>
                some (Char.ofNat (((a * 16 + b) * 16 + c2) * 16 + d), rest3)
              | _, _, _, _ => none
            | _ => none
          else none
        match esc? with
        | none => none
        | some (ch, r) => (jsonStringRest fuel r).map (fun p => (ch :: p.1, p.2))
    else if c.toNat < 32 then none
    else (jsonStringRest fuel rest).map (fun p => (c :: p.1, p.2))

/-- Insert an object member; a key that reappears later in the document wins,
as with Python dict construction. -/
def objCons (k : String) (v : Json) (fields : List (String × Json)) :
    List (String × Json) :=
  if (fields.lookup k).isSome then fields else (k, v) :: fields

mutual

/-- Read one JSON value. -/
def jsonValue : Nat → List Char → Option (Json × List Char)
  | 0, _ => none
  | fuel + 1, cs =>
    match skipWs cs with
    | 'n' :: 'u' :: 'l' :: 'l' :: rest => some (.null, rest)
    | 't' :: 'r' :: 'u' :: 'e' :: rest => some (.bool true, rest)
    | 'f' :: 'a' :: 'l' :: 's' :: 'e' :: rest => some (.bool false, rest)
    | '\"' :: rest =>
      match jsonStringRest (rest.length + 1) rest with
      | some (content, rem) => some (.str (String.mk content), rem)
      | none => none
    | '[' :: rest =>
      match skipWs rest with
      | ']' :: rem => some (.arr [], rem)
      | cs2 =>
        match jsonElems fuel cs2 with
        | some (elems, rem) => some (.arr elems, rem)
        | none => none
    | '\x7b' :: rest =>
      match skipWs rest with
      | '\x7d' :: rem => some (.obj [], rem)
      | cs2 =>
        match jsonMembers fuel cs2 with
        | some (fields, rem) => some (.obj fields, rem)
        | none => none
    | cs1 =>
      match jsonNumber cs1 with
      | some (q, rem) => some (.num q, rem)
      | none => none

/-- Read the elements of a non-empty JSON array, including the closing
bracket. -/
def jsonElems : Nat → List Char → Option (List Json × List Char)
  | 0, _ => none
  | fuel + 1, cs =>
    match jsonValue fuel cs with
    | none => none
    | some (v, rest) =>
      match skipWs rest with
      | ',' :: rest2 =>
        match jsonElems fuel rest2 with
        | some (vs, rem) => some (v :: vs, rem)
        | none => none
      | ']' :: rem => some ([v], rem)
      | _ => none

/-- Read the members of a non-empty JSON object, including the closing
brace. -/
def jsonMembers : Nat → List Char → Option (List (String × Json) × List Char)
  | 0, _ => none
  | fuel + 1, cs =>
    match skipWs cs with
    | '\"' :: rest =>
      match jsonStringRest (rest.length + 1) rest with
      | none => none
      | some (key, rest2) =>
        match skipWs rest2 with
        | ':' :: rest3 =>
          match jsonValue fuel rest3 with
          | none => none
          | some (v, rest4) =>
            match skipWs rest4 with
            | ',' :: rest5 =>
              match jsonMembers fuel rest5 with
              | some (fields, rem) => some (objCons (String.mk key) v fields, rem)
              | none => none
            | '\x7d' :: rem => some ([(String.mk key, v)], rem)
            | _ => none
        | _ => none
    | _ => none

end

/-- json.loads: read one value, require only whitespace after it; none models
json.JSONDecodeError. -/
def pyLoads (s : String) : Option Json :=
  match jsonValue (2 * s.length + 8) s.toList with
  | some (j, rest) => if (skipWs rest).isEmpty then some j else none
  | none => none

-- ---------------------------------------------------------------------------
-- Data structures (qube_runtime.py lines 29-77)
-- ---------------------------------------------------------------------------

/-- StateVector dataclass.  The Python dataclass stores whatever values it is
given (annotations are not enforced), so the fields hold JSON values. -/
structure StateVector where
  phi : Json
  psi : Json
  omega : Json
  tau : Json

/-- TokenPixel dataclass, fields in source order. -/
structure TokenPixel where
  tokenPixelId : Json
  timestamp : Json
  agentId : Json
  corridor : Json
  stateVector : StateVector
  intentHash : Json
  eventDelta : Json
  autonomyIndex : Json
  voxelSignature : Json
  prevHash : Json
  hash : Json

/-- Corridor dataclass. -/
structure Corridor where
  district : Int
  chamber : String
  node : String
deriving DecidableEq

/-- Decision dataclass; params is a Python dict of named parameters. -/
structure Decision where
  action : String
  reason : String
  params : List (String × Json)

/-- ActionResult dataclass. -/
structure ActionResult (α : Type) where
  success : Bool
  result : Option α := none
  error : Option String := none

/-- DriftStatus constants (plain strings in the source). -/
def DriftStatus.NOMINAL : String := "NOMINAL"

/-- DriftStatus.WARNING constant. -/
def DriftStatus.WARNING : String := "WARNING"

/-- DriftStatus.CRITICAL constant. -/
def DriftStatus.CRITICAL : String := "CRITICAL"

-- ---------------------------------------------------------------------------
-- TokenPixelDeserializer (lines 81-119)
-- ---------------------------------------------------------------------------

namespace TokenPixelDeserializer

/-- Python subscription data[key]: KeyError when the key is absent from a
dict, TypeError when the value subscripted with a string is not a dict. -/
def getItem (data : Json) (key : String) : Except PyErr Json :=
  match data with
  | .obj fields =>
    match fields.lookup key with
    | some v => .ok v
    | none => .error (.keyError key)
  | _ => .error .typeError

/-- StateVector(**j): TypeError unless j is a mapping with exactly the keys
phi, psi, omega, tau. -/
def mkStateVector (j : Json) : Except PyErr StateVector :=
  match j with
  | .obj fields =>
    match fields.lookup "phi", fields.lookup "psi",
          fields.lookup "omega", fields.lookup "tau" with
    | some phi, some psi, some omega, some tau =>
      if fields.all (fun kv =>
          kv.1 = "phi" || kv.1 = "psi" || kv.1 = "omega" || kv.1 = "tau") then
        .ok ⟨phi, psi, omega, tau⟩
      else
        .error .typeError
    | _, _, _, _ => .error .typeError
  | _ => .error .typeError

/-- The TokenPixel construction of parse (lines 93-105), with the keyword
arguments evaluated in source order. -/
def extractPixel (data : Json) : Except PyErr TokenPixel := do
  let tokenPixelId ← getItem data "tokenPixelId"
  let timestamp ← getItem data "timestamp"
  let agentId ← getItem data "agentId"
  let corridor ← getItem data "corridor"
  let svJson ← getItem data "stateVector"
  let stateVector ← mkStateVector svJson
  let intentHash ← getItem data "intentHash"
  let eventDelta ← getItem data "eventDelta"
  let autonomyIndex ← getItem data "autonomyIndex"
  let voxelSignature ← getItem data "voxelSignature"
  let prevHash ← getItem data "prevHash"
  let hash ← getItem data "hash"
  return ⟨tokenPixelId, timestamp, agentId, corridor, stateVector, intentHash,
          eventDelta, autonomyIndex, voxelSignature, prevHash, hash⟩

/-- TokenPixelDeserializer.parse (lines 84-111).  The try block catches
json.JSONDecodeError and KeyError (both yield ok none); any other exception
escapes to the caller. -/
def parse (line : String) : Except PyErr (Option TokenPixel) :=
  if (pyStrip line).isEmpty then .ok none
  else
    match pyLoads line with
    | none => .ok none
    | some data =>
      match extractPixel data with
      | .ok px => .ok (some px)
      | .error (.keyError _) => .ok none
      | .error .typeError => .error .typeError

end TokenPixelDeserializer

-- ---------------------------------------------------------------------------
-- StateVectorInterpreter (lines 121-143)
-- ---------------------------------------------------------------------------

namespace StateVectorInterpreter

/-- Python float modulo, which is floored (result has the sign of the
divisor), idealised over the reals. -/
noncomputable def pyFloorModReal (x m : ℝ) : ℝ := x - m * (Int.floor (x / m))

/-- get_phase_quadrant (lines 124-128): normalized = phi % (2 * math.pi);
int(normalized // (math.pi / 2)).  Floor division of the non-negative
normalized value followed by int() is a single floor. -/
noncomputable def get_phase_quadrant (phi : ℝ) : ℤ :=
  let normalized := pyFloorModReal phi (2 * Real.pi)
  Int.floor (normalized / (Real.pi / 2))

end StateVectorInterpreter

-- ---------------------------------------------------------------------------
-- CorridorNavigator (lines 145-165)
-- ---------------------------------------------------------------------------

namespace CorridorNavigator

/-- parse_corridor (lines 151-160): the except (IndexError, ValueError)
handler yields the sentinel Corridor; each match-none branch below marks one
statement of the try block that can raise one of those two exceptions. -/
def parse_corridor (corridor_str : String) : Corridor :=
  let parts := pySplit corridor_str "."
  match parts[0]? with
  | none => ⟨0, "UNKNOWN", "UNKNOWN"⟩
  | some p0 =>
    match (pySplit p0 "_")[1]? with
    | none => ⟨0, "UNKNOWN", "UNKNOWN"⟩
    | some dstr =>
      match pyInt? dstr with
      | none => ⟨0, "UNKNOWN", "UNKNOWN"⟩
      | some district =>
        match parts[1]?, parts[2]? with
        | some chamber, some node => ⟨district, chamber, node⟩
        | _, _ => ⟨0, "UNKNOWN", "UNKNOWN"⟩

end CorridorNavigator

-- ---------------------------------------------------------------------------
-- VoxelCollisionDetector (lines 167-203)
-- ---------------------------------------------------------------------------

namespace VoxelCollisionDetector

/-- decode_voxel_signature (lines 173-185).  The voxel cache is the instance
state; the updated cache is returned alongside the decoded bits.  Python
hash_val & 0x7FFFFFF on an arbitrary-precision int (possibly negative) is the
floored remainder modulo 2^27. -/
def decode_voxel_signature (voxel_cache : List (String × Nat)) (signature : String) :
    Nat × List (String × Nat) :=
  match voxel_cache.lookup signature with
  | some bits => (bits, voxel_cache)
  | none =>
    match ((pySplit signature "0x")[1]?).bind pyIntHex? with
    | some hash_val =>
      let bits := (hash_val % (2 ^ 27 : Int)).toNat
      (bits, (signature, bits) :: voxel_cache)
    | none => (0, voxel_cache)

/-- The direction_map dict of is_collision_ahead (lines 190-195). -/
def direction_map : List (String × List Nat) :=
  [("forward", [2, 5, 8, 11, 14, 17, 20, 23, 26]),
   ("backward", [0, 3, 6, 9, 12, 15, 18, 21, 24]),
   ("left", [0, 1, 2, 9, 10, 11, 18, 19, 20]),
   ("right", [6, 7, 8, 15, 16, 17, 24, 25, 26])]

/-- is_collision_ahead (lines 187-203): direction_map.get(direction, []),
then report whether any mapped bit is set. -/
def is_collision_ahead (voxel_bits : Nat) (direction : String) : Bool :=
  let bits_to_check := (direction_map.lookup direction).getD []
  bits_to_check.any (fun bit_pos => voxel_bits &&& (1 <<< bit_pos) != 0)

end VoxelCollisionDetector

-- ---------------------------------------------------------------------------
-- AutonomyDriftMonitor (lines 215-235)
-- ---------------------------------------------------------------------------

namespace AutonomyDriftMonitor

/-- Default warning threshold (0.3). -/
def default_warning_threshold : ℚ := 0.3

/-- Default critical threshold (0.7). -/
def default_critical_threshold : ℚ := 0.7

/-- check_drift (lines 223-235): append the sample, pop the oldest entry once
the history exceeds 100 entries, then classify against the thresholds.
Returns the status together with the updated history. -/
def check_drift (warning_threshold critical_threshold : ℚ)
    (drift_history : List ℚ) (autonomy_index : ℚ) : String × List ℚ :=
  let history1 := drift_history ++ [autonomy_index]
  let history2 := if history1.length > 100 then history1.tail else history1
  let status :=
    if autonomy_index ≥ critical_threshold then DriftStatus.CRITICAL
    else if autonomy_index ≥ warning_threshold then DriftStatus.WARNING
    else DriftStatus.NOMINAL
  (status, history2)

/-- One history update step with the default thresholds. -/
def drift_step (drift_history : List ℚ) (autonomy_index : ℚ) : List ℚ :=
  (check_drift default_warning_threshold default_critical_threshold
    drift_history autonomy_index).2

/-- The history held by a fresh monitor after a sequence of check_drift
calls. -/
def drift_run (samples : List ℚ) : List ℚ :=
  samples.foldl drift_step []

end AutonomyDriftMonitor

-- ---------------------------------------------------------------------------
-- ActionExecutor (lines 237-258)
-- ---------------------------------------------------------------------------

/-- A registry entry: an arbitrary callable (whose invocation either returns
a value or raises, modelled by Except), or a non-callable value. -/
inductive PyEntry (α : Type) where
  | callableEntry (f : List (String × Json) → Except String α) : PyEntry α
  | plainEntry (a : α) : PyEntry α

namespace ActionExecutor

/-- execute (lines 243-258): unknown names fail with an error message; a
callable entry is invoked with the params expanded as named arguments under a
catch-all handler; a non-callable entry is returned as a success. -/
def execute {α : Type} (registry : List (String × PyEntry α))
    (action_name : String) (params : List (String × Json)) : ActionResult α :=
  match registry.lookup action_name with
  | none => ⟨false, none, some ("Unknown action: " ++ action_name)⟩
  | some (.callableEntry f) =>
    match f params with
    | .ok r => ⟨true, some r, none⟩
    | .error e => ⟨false, none, some e⟩
  | some (.plainEntry a) => ⟨true, some a, none⟩

end ActionExecutor

-- ---------------------------------------------------------------------------
-- QubeRuntime.decide (lines 319-358)
-- ---------------------------------------------------------------------------

/-- The keyword-argument context built by process_pixel (lines 299-308) and
consumed by decide. -/
structure DecideContext where
  corridor : Corridor
  quadrant : Int
  aligned : Bool
  activity : String
  drift_status : String
  collision_ahead : Bool
  intent_label : Option String
  pixel : TokenPixel

namespace QubeRuntime

/-- decide (lines 319-358): the ordered priority chain. -/
def decide (context : DecideContext) : Decision :=
  if context.drift_status = DriftStatus.CRITICAL then
    ⟨"HALT", "Critical autonomy drift detected", []⟩
  else if context.collision_ahead then
    ⟨"AVOID_OBSTACLE", "Collision detected in voxel neighborhood",
      [("direction", Json.str "left")]⟩
  else if !context.aligned then
    ⟨"REALIGN_INTENT", "Intent alignment below threshold",
      [("target_psi", Json.num 0.8)]⟩
  else if context.intent_label = some "EXECUTE_URGENT" then
    ⟨"EXECUTE_IMMEDIATE", "Urgent intent detected", []⟩
  else
    ⟨"CONTINUE", "Nominal operation", []⟩

end QubeRuntime

-- ---------------------------------------------------------------------------
-- Concrete sample inputs used by the closed theorems below
-- ---------------------------------------------------------------------------

/-- An input line whose stateVector object lacks the phi field but which is
otherwise a complete, well-formed token pixel record. -/
def badPixelLine : String :=
  "\x7b\"tokenPixelId\":\"T\",\"timestamp\":1,\"agentId\":\"A\",\"corridor\":\"C\",\"stateVector\":\x7b\"psi\":1,\"omega\":1,\"tau\":1\x7d,\"intentHash\":\"I\",\"eventDelta\":\"E\",\"autonomyIndex\":0.1,\"voxelSignature\":\"V\",\"prevHash\":\"P\",\"hash\":\"H\"\x7d"

/-- A complete record except that the top-level autonomyIndex field is
missing. -/
def missingAutonomyLine : String :=
  "\x7b\"tokenPixelId\":\"T\",\"timestamp\":1,\"agentId\":\"A\",\"corridor\":\"C\",\"stateVector\":\x7b\"phi\":0.5,\"psi\":1,\"omega\":1,\"tau\":1\x7d,\"intentHash\":\"I\",\"eventDelta\":\"E\",\"voxelSignature\":\"V\",\"prevHash\":\"P\",\"hash\":\"H\"\x7d"

/-- A syntactically malformed input line. -/
def malformedLine : String := "not json"

/-- A token pixel value used to build sample decision contexts. -/
def samplePixelA : TokenPixel :=
  ⟨.str "TPX_A", .num 1, .str "AGENT_Q", .str "DISTRICT_1.CHAMBER_0.NODE_START",
   ⟨.num 0.5, .num 0.9, .num 1, .num 100⟩,
   .str "sha256:9f2c8d1e", .str "EVENT_001", .num 0.1,
   .str "VXL_0x00000000", .str "hash_prev", .str "hash_curr"⟩

/-- A second token pixel differing from samplePixelA in every field. -/
def samplePixelB : TokenPixel :=
  ⟨.str "TPX_B", .num 2, .str "AGENT_R", .str "DISTRICT_9.CHAMBER_9.NODE_END",
   ⟨.num 3, .num 0.1, .num 9, .num 200⟩,
   .str "sha256:other", .str "EVENT_002", .num 0.6,
   .str "VXL_0x00000004", .str "p2", .str "h2"⟩

/-- Context with critical drift and a collision ahead. -/
def ctxCritCollision : DecideContext :=
  ⟨⟨1, "CHAMBER_0", "NODE_START"⟩, 0, true, "ACTIVE", "CRITICAL", true,
   some "EXECUTE_URGENT", samplePixelA⟩

/-- Context with a collision ahead and intent not aligned, drift nominal. -/
def ctxCollisionMisaligned : DecideContext :=
  ⟨⟨1, "CHAMBER_0", "NODE_START"⟩, 0, false, "ACTIVE", "NOMINAL", true,
   none, samplePixelA⟩

/-- Nominal context built from samplePixelA. -/
def ctxNominalA : DecideContext :=
  ⟨⟨1, "CHAMBER_0", "NODE_START"⟩, 0, true, "ACTIVE", "NOMINAL", false,
   some "EXECUTE_TASK", samplePixelA⟩

/-- A context that agrees with ctxNominalA on drift status, collision,
alignment and intent label, and differs on every other entry. -/
def ctxNominalB : DecideContext :=
  ⟨⟨9, "CHAMBER_9", "NODE_END"⟩, 3, true, "HYPERACTIVE", "NOMINAL", false,
   some "EXECUTE_TASK", samplePixelB⟩

-- ---------------------------------------------------------------------------
-- Theorems
-- ---------------------------------------------------------------------------

/-- C1: for every enriched context, decide is a strictly ordered priority
chain in which the first matching rule wins: CRITICAL drift yields HALT with
no parameters; else a collision ahead yields AVOID_OBSTACLE with direction
left; else misalignment yields REALIGN_INTENT with target_psi 0.8; else the
EXECUTE_URGENT intent label yields EXECUTE_IMMEDIATE; otherwise CONTINUE with
reason Nominal operation.  In particular CRITICAL drift with a collision
yields HALT and never AVOID_OBSTACLE, and a collision with misalignment
never yields REALIGN_INTENT. -/
theorem decide_priority_chain (ctx : DecideContext) :
    (ctx.drift_status = DriftStatus.CRITICAL →
      QubeRuntime.decide ctx = ⟨"HALT", "Critical autonomy drift detected", []⟩) ∧
    (ctx.drift_status ≠ DriftStatus.CRITICAL → ctx.collision_ahead = true →
      QubeRuntime.decide ctx =
        ⟨"AVOID_OBSTACLE", "Collision detected in voxel neighborhood",
          [("direction", Json.str "left")]⟩) ∧
    (ctx.drift_status ≠ DriftStatus.CRITICAL → ctx.collision_ahead = false →
      ctx.aligned = false →
      QubeRuntime.decide ctx =
        ⟨"REALIGN_INTENT", "Intent alignment below threshold",
          [("target_psi", Json.num 0.8)]⟩) ∧
    (ctx.drift_status ≠ DriftStatus.CRITICAL → ctx.collision_ahead = false →
      ctx.aligned = true → ctx.intent_label = some "EXECUTE_URGENT" →
      QubeRuntime.decide ctx = ⟨"EXECUTE_IMMEDIATE", "Urgent intent detected", []⟩) ∧
    (ctx.drift_status ≠ DriftStatus.CRITICAL → ctx.collision_ahead = false →
      ctx.aligned = true → ctx.intent_label ≠ some "EXECUTE_URGENT" →
      QubeRuntime.decide ctx = ⟨"CONTINUE", "Nominal operation", []⟩) ∧
    (ctx.drift_status = DriftStatus.CRITICAL → ctx.collision_ahead = true →
      (QubeRuntime.decide ctx).action = "HALT" ∧
      (QubeRuntime.decide ctx).action ≠ "AVOID_OBSTACLE") ∧
    (ctx.collision_ahead = true → ctx.aligned = false →
      (QubeRuntime.decide ctx).action ≠ "REALIGN_INTENT") := by
  refine ⟨?_, ?_, ?_, ?_, ?_, ?_, ?_⟩
  · intro h1
    simp [QubeRuntime.decide, h1]
  · intro h1 h2
    simp [QubeRuntime.decide, h1, h2]
  · intro h1 h2 h3
    simp [QubeRuntime.decide, h1, h2, h3]
  · intro h1 h2 h3 h4
    simp [QubeRuntime.decide, h1, h2, h3, h4]
  · intro h1 h2 h3 h4
    simp [QubeRuntime.decide, h1, h2, h3, h4]
  · intro h1 h2
    simp [QubeRuntime.decide, h1, h2]
  · intro h2 h3
    by_cases h1 : ctx.drift_status = DriftStatus.CRITICAL
    · simp [QubeRuntime.decide, h1]
    · simp [QubeRuntime.decide, h1, h2, h3]

/-- Witness for C1: the theorem applied to concrete contexts, covering the
two precedence cases the claim highlights. -/
theorem decide_priority_chain_witness :
    QubeRuntime.decide ctxCritCollision =
      ⟨"HALT", "Critical autonomy drift detected", []⟩ ∧
    QubeRuntime.decide ctxCollisionMisaligned =
      ⟨"AVOID_OBSTACLE", "Collision detected in voxel neighborhood",
        [("direction", Json.str "left")]⟩ :=
  ⟨(decide_priority_chain ctxCritCollision).1 rfl,
   (decide_priority_chain ctxCollisionMisaligned).2.1 (by decide) rfl⟩

/-- C10: decide depends only on drift_status, collision_ahead, aligned and
intent_label; the corridor, quadrant, activity and pixel entries of the
context have no influence on the decision. -/
theorem decide_depends_only_on_four (c1 c2 : DecideContext)
    (h1 : c1.drift_status = c2.drift_status)
    (h2 : c1.collision_ahead = c2.collision_ahead)
    (h3 : c1.aligned = c2.aligned)
    (h4 : c1.intent_label = c2.intent_label) :
    QubeRuntime.decide c1 = QubeRuntime.decide c2 := by
  unfold QubeRuntime.decide
  rw [h1, h2, h3, h4]

/-- Witness for C10: two contexts differing in corridor, quadrant, activity
and pixel produce the same decision. -/
theorem decide_depends_only_on_four_witness :
    QubeRuntime.decide ctxNominalA = QubeRuntime.decide ctxNominalB :=
  decide_depends_only_on_four ctxNominalA ctxNominalB rfl rfl rfl rfl

/-- C4: with the default thresholds 0.3 and 0.7, check_drift classifies the
current index alone: CRITICAL iff the index is at least 0.7, else WARNING iff
at least 0.3, else NOMINAL; the status never depends on the stored history;
and checkDrift(0.95), checkDrift(0.5), checkDrift(0.1) give CRITICAL,
WARNING, NOMINAL. -/
theorem check_drift_classification :
    AutonomyDriftMonitor.default_warning_threshold = 0.3 ∧
    AutonomyDriftMonitor.default_critical_threshold = 0.7 ∧
    (∀ (i : ℚ) (h h' : List ℚ),
      (AutonomyDriftMonitor.check_drift 0.3 0.7 h i).1 =
        (AutonomyDriftMonitor.check_drift 0.3 0.7 h' i).1) ∧
    (∀ (i : ℚ) (h : List ℚ),
      ((AutonomyDriftMonitor.check_drift 0.3 0.7 h i).1 = DriftStatus.CRITICAL ↔
        (0.7 : ℚ) ≤ i) ∧
      ((AutonomyDriftMonitor.check_drift 0.3 0.7 h i).1 = DriftStatus.WARNING ↔
        (0.3 : ℚ) ≤ i ∧ i < 0.7) ∧
      ((AutonomyDriftMonitor.check_drift 0.3 0.7 h i).1 = DriftStatus.NOMINAL ↔
        i < 0.3)) ∧
    (AutonomyDriftMonitor.check_drift 0.3 0.7 [] 0.95).1 = DriftStatus.CRITICAL ∧
    (AutonomyDriftMonitor.check_drift 0.3 0.7 [] 0.5).1 = DriftStatus.WARNING ∧
    (AutonomyDriftMonitor.check_drift 0.3 0.7 [] 0.1).1 = DriftStatus.NOMINAL := by
  have hstat : ∀ (i : ℚ) (h : List ℚ),
      (AutonomyDriftMonitor.check_drift 0.3 0.7 h i).1 =
        if (0.7 : ℚ) ≤ i then DriftStatus.CRITICAL
        else if (0.3 : ℚ) ≤ i then DriftStatus.WARNING
        else DriftStatus.NOMINAL := by
    intro i h
    rfl
  refine ⟨rfl, rfl, ?_, ?_, ?_, ?_, ?_⟩
  · intro i h h'
    rw [hstat, hstat]
  · intro i h
    rw [hstat]
    by_cases hc : (0.7 : ℚ) ≤ i
    · rw [if_pos hc]
      refine ⟨iff_of_true rfl hc, ?_, ?_⟩
      · refine iff_of_false (by decide) ?_
        rintro ⟨-, hlt⟩
        linarith
      · refine iff_of_false (by decide) ?_
        intro hlt
        linarith
    · rw [if_neg hc]
      by_cases hw : (0.3 : ℚ) ≤ i
      · rw [if_pos hw]
        refine ⟨iff_of_false (by decide) hc, ?_, ?_⟩
        · exact iff_of_true rfl ⟨hw, by linarith [lt_of_not_le hc]⟩
        · refine iff_of_false (by decide) ?_
          intro hlt
          linarith
      · rw [if_neg hw]
        refine ⟨iff_of_false (by decide) hc, ?_, ?_⟩
        · refine iff_of_false (by decide) ?_
          rintro ⟨hle, -⟩
          exact hw hle
        · exact iff_of_true rfl (lt_of_not_le hw)
  · rw [hstat]
    norm_num
  · rw [hstat]
    norm_num
  · rw [hstat]
    norm_num

/-- C8: execute never propagates a fault: an unregistered name yields
success=false with the non-empty error Unknown action: name; a registered
callable is invoked with the params and a failure during invocation is
returned as success=false carrying the failure message; a registered
non-callable entry is returned directly as a success. -/
theorem execute_isolation (α : Type) (registry : List (String × PyEntry α))
    (action_name : String) (params : List (String × Json)) :
    (registry.lookup action_name = none →
      ActionExecutor.execute registry action_name params =
        ⟨false, none, some ("Unknown action: " ++ action_name)⟩ ∧
      ("Unknown action: " ++ action_name) ≠ "") ∧
    (∀ (f : List (String × Json) → Except String α) (r : α),
      registry.lookup action_name = some (.callableEntry f) → f params = .ok r →
      ActionExecutor.execute registry action_name params = ⟨true, some r, none⟩) ∧
    (∀ (f : List (String × Json) → Except String α) (e : String),
      registry.lookup action_name = some (.callableEntry f) → f params = .error e →
      ActionExecutor.execute registry action_name params = ⟨false, none, some e⟩) ∧
    (∀ a : α, registry.lookup action_name = some (.plainEntry a) →
      ActionExecutor.execute registry action_name params = ⟨true, some a, none⟩) := by
  refine ⟨?_, ?_, ?_, ?_⟩
  · intro hnone
    refine ⟨by simp [ActionExecutor.execute, hnone], ?_⟩
    intro hc
    have hlen := congrArg String.length hc
    rw [String.length_append] at hlen
    have h16 : ("Unknown action: ").length = 16 := rfl
    have h0 : ("" : String).length = 0 := rfl
    omega
  · intro f r hf hr
    simp [ActionExecutor.execute, hf, hr]
  · intro f e hf he
    simp [ActionExecutor.execute, hf, he]
  · intro a ha
    simp [ActionExecutor.execute, ha]

/-- Witness for C8: an empty registry with an unknown action name, and a
one-entry registry whose callable fails. -/
theorem execute_isolation_witness :
    ActionExecutor.execute ([] : List (String × PyEntry Nat)) "FLY" [] =
      ⟨false, none, some ("Unknown action: " ++ "FLY")⟩ ∧
    ActionExecutor.execute
        ([("HALT", PyEntry.callableEntry (fun _ => Except.error "boom"))] :
          List (String × PyEntry Nat)) "HALT"
        ([] : List (String × Json)) =
      ⟨false, none, some "boom"⟩ :=
  ⟨((execute_isolation Nat [] "FLY" []).1 rfl).1,
   (execute_isolation Nat
      ([("HALT", PyEntry.callableEntry (fun _ => Except.error "boom"))] :
        List (String × PyEntry Nat)) "HALT" []).2.2.1
     (fun _ => Except.error "boom") "boom" rfl rfl⟩

/-- Counterexample for C3: a corridor string with four dot-segments is not
mapped to the sentinel; parse_corridor uses the first three segments and
ignores the rest. -/
theorem parse_corridor_counterexample :
    (pySplit "DISTRICT_5.A.B.C" ".").length = 4 ∧
    CorridorNavigator.parse_corridor "DISTRICT_5.A.B.C" = ⟨5, "A", "B"⟩ ∧
    CorridorNavigator.parse_corridor "DISTRICT_5.A.B.C" ≠ ⟨0, "UNKNOWN", "UNKNOWN"⟩ := by
  refine ⟨rfl, rfl, ?_⟩
  have he : CorridorNavigator.parse_corridor "DISTRICT_5.A.B.C" = ⟨5, "A", "B"⟩ := rfl
  rw [he]
  decide

/-- C3 (amended): parse_corridor splits on the dot and requires at least 3
segments, using the first three and ignoring any extras; the district is the
integer parsed from the text between the first and second underscore of
segment 1; fewer than three segments or a failed integer parse yields the
sentinel Corridor(0, UNKNOWN, UNKNOWN), and the function never raises. -/
theorem parse_corridor_amended (s p0 chamber node : String) (rest : List String) :
    ((pySplit s ".").length < 3 →
      CorridorNavigator.parse_corridor s = ⟨0, "UNKNOWN", "UNKNOWN"⟩) ∧
    (pySplit s "." = p0 :: chamber :: node :: rest →
      (∀ d : Int, ((pySplit p0 "_")[1]?).bind pyInt? = some d →
        CorridorNavigator.parse_corridor s = ⟨d, chamber, node⟩) ∧
      (((pySplit p0 "_")[1]?).bind pyInt? = none →
        CorridorNavigator.parse_corridor s = ⟨0, "UNKNOWN", "UNKNOWN"⟩)) := by
  constructor
  · intro hlen
    rcases hp : pySplit s "." with _ | ⟨a, _ | ⟨b, _ | ⟨c, r⟩⟩⟩
    · simp [CorridorNavigator.parse_corridor, hp]
    · rcases hq : (pySplit a "_")[1]? with _ | dstr
      · simp [CorridorNavigator.parse_corridor, hp, hq]
      · rcases hd : pyInt? dstr with _ | d
        · simp [CorridorNavigator.parse_corridor, hp, hq, hd]
        · simp [CorridorNavigator.parse_corridor, hp, hq, hd]
    · rcases hq : (pySplit a "_")[1]? with _ | dstr
      · simp [CorridorNavigator.parse_corridor, hp, hq]
      · rcases hd : pyInt? dstr with _ | d
        · simp [CorridorNavigator.parse_corridor, hp, hq, hd]
        · simp [CorridorNavigator.parse_corridor, hp, hq, hd]
    · rw [hp] at hlen
      simp [List.length_cons] at hlen
      omega
  · intro hp
    constructor
    · intro d hd
      rcases hq : (pySplit p0 "_")[1]? with _ | dstr
      · rw [hq] at hd
        exact Option.noConfusion hd
      · rw [hq] at hd
        have hdd : pyInt? dstr = some d := hd
        simp [CorridorNavigator.parse_corridor, hp, hq, hdd]
    · intro hd
      rcases hq : (pySplit p0 "_")[1]? with _ | dstr
      · simp [CorridorNavigator.parse_corridor, hp, hq]
      · rw [hq] at hd
        have hdd : pyInt? dstr = none := hd
        simp [CorridorNavigator.parse_corridor, hp, hq, hdd]

/-- Witness for C3: the amended theorem applied to the canonical corridor
string from the default corridor graph. -/
theorem parse_corridor_amended_witness :
    CorridorNavigator.parse_corridor "DISTRICT_1.CHAMBER_0.NODE_START" =
      ⟨1, "CHAMBER_0", "NODE_START"⟩ :=
  ((parse_corridor_amended "DISTRICT_1.CHAMBER_0.NODE_START" "DISTRICT_1"
      "CHAMBER_0" "NODE_START" []).2 rfl).1 1 rfl

/-- The occupancy test used by is_collision_ahead agrees with Nat.testBit. -/
theorem and_shift_eq_testBit (x b : Nat) :
    (x &&& (1 <<< b) != 0) = x.testBit b := by
  rw [Nat.shiftLeft_eq, one_mul]
  cases hx : x.testBit b
  · have h := Nat.and_two_pow x b
    rw [hx] at h
    simp only [Bool.toNat_false, zero_mul] at h
    simp [h]
  · have h := Nat.and_two_pow x b
    rw [hx] at h
    simp only [Bool.toNat_true, one_mul] at h
    simp [h]

/-- C5: is_collision_ahead is true exactly when a bit of the fixed 9-position
face set of the direction is set; the forward set is
2,5,8,11,14,17,20,23,26; an unrecognized direction maps to the empty set
and gives false; a zero mask gives false for every direction; and the
decoded signature ...0x00000004 sets bit 2, which makes the forward test
true. -/
theorem is_collision_ahead_faces (voxel_bits : Nat) (direction : String) :
    (∀ face : List Nat, VoxelCollisionDetector.direction_map.lookup direction = some face →
      (VoxelCollisionDetector.is_collision_ahead voxel_bits direction = true ↔
        ∃ p ∈ face, Nat.testBit voxel_bits p = true)) ∧
    (VoxelCollisionDetector.direction_map.lookup direction = none →
      VoxelCollisionDetector.is_collision_ahead voxel_bits direction = false) ∧
    VoxelCollisionDetector.is_collision_ahead 0 direction = false ∧
    VoxelCollisionDetector.direction_map.lookup "forward" =
      some [2, 5, 8, 11, 14, 17, 20, 23, 26] ∧
    (VoxelCollisionDetector.decode_voxel_signature [] "VXL_0x00000004").1 = 4 ∧
    Nat.testBit 4 2 = true ∧
    VoxelCollisionDetector.is_collision_ahead
      (VoxelCollisionDetector.decode_voxel_signature [] "VXL_0x00000004").1
      "forward" = true := by
  refine ⟨?_, ?_, ?_, rfl, rfl, rfl, rfl⟩
  · intro face hface
    simp [VoxelCollisionDetector.is_collision_ahead, hface, List.any_eq_true,
      and_shift_eq_testBit]
  · intro hnone
    simp [VoxelCollisionDetector.is_collision_ahead, hnone]
  · rcases hl : VoxelCollisionDetector.direction_map.lookup direction with _ | face
    · simp [VoxelCollisionDetector.is_collision_ahead, hl]
    · simp [VoxelCollisionDetector.is_collision_ahead, hl, and_shift_eq_testBit]

/-- Witness for C5: the face characterisation applied at mask 4 and direction
forward. -/
theorem is_collision_ahead_faces_witness :
    VoxelCollisionDetector.is_collision_ahead 4 "forward" = true :=
  ((is_collision_ahead_faces 4 "forward").1 [2, 5, 8, 11, 14, 17, 20, 23, 26]
    rfl).mpr ⟨2, by decide, by decide⟩

/-- C6: on a cache miss, decode_voxel_signature parses the hexadecimal text
after the 0x marker and returns it masked to the low 27 bits, so the result
is always below 2^27; a missing marker or an unparsable payload yields 0
instead of raising. -/
theorem decode_voxel_signature_masked (sig : String) (cache : List (String × Nat))
    (hmiss : cache.lookup sig = none) :
    (VoxelCollisionDetector.decode_voxel_signature cache sig).1 < 2 ^ 27 ∧
    (∀ hv : Int, ((pySplit sig "0x")[1]?).bind pyIntHex? = some hv →
      (VoxelCollisionDetector.decode_voxel_signature cache sig).1 =
        (hv % (2 ^ 27 : Int)).toNat) ∧
    (((pySplit sig "0x")[1]?).bind pyIntHex? = none →
      (VoxelCollisionDetector.decode_voxel_signature cache sig).1 = 0) := by
  refine ⟨?_, ?_, ?_⟩
  · rcases hx : ((pySplit sig "0x")[1]?).bind pyIntHex? with _ | hv
    · simp [VoxelCollisionDetector.decode_voxel_signature, hmiss, hx]
    · simp only [VoxelCollisionDetector.decode_voxel_signature, hmiss, hx]
      have h1 : (0 : Int) ≤ hv % (2 ^ 27 : Int) :=
        Int.emod_nonneg hv (by positivity)
      have h2 : hv % (2 ^ 27 : Int) < 2 ^ 27 :=
        Int.emod_lt_of_pos hv (by positivity)
      omega
  · intro hv hx
    simp [VoxelCollisionDetector.decode_voxel_signature, hmiss, hx]
  · intro hx
    simp [VoxelCollisionDetector.decode_voxel_signature, hmiss, hx]

/-- Witness for C6: the masking theorem applied to the signature from the
test suite, which decodes to 4. -/
theorem decode_voxel_signature_masked_witness :
    (VoxelCollisionDetector.decode_voxel_signature [] "VXL_0x00000004").1 =
      ((4 : Int) % (2 ^ 27 : Int)).toNat :=
  (decode_voxel_signature_masked "VXL_0x00000004" [] rfl).2.1 4 rfl

/-- One check_drift call updates the history by appending the sample and
popping the head once the length exceeds 100. -/
theorem drift_step_spec (h : List ℚ) (i : ℚ) :
    AutonomyDriftMonitor.drift_step h i =
      if h.length + 1 > 100 then (h ++ [i]).tail else h ++ [i] := by
  simp [AutonomyDriftMonitor.drift_step, AutonomyDriftMonitor.check_drift]

/-- Folding drift_step from any history of at most 100 entries keeps exactly
the last 100 entries of the combined sequence. -/
theorem drift_run_aux (xs : List ℚ) : ∀ h : List ℚ, h.length ≤ 100 →
    List.foldl AutonomyDriftMonitor.drift_step h xs =
      (h ++ xs).drop (h.length + xs.length - 100) := by
  induction xs with
  | nil =>
    intro h hle
    have hz : h.length + List.length ([] : List ℚ) - 100 = 0 := by
      simp
      omega
    rw [hz]
    simp
  | cons x t ih =>
    intro h hle
    rw [List.foldl_cons]
    by_cases hc : h.length + 1 > 100
    · have h100 : h.length = 100 := by omega
      have hstep : AutonomyDriftMonitor.drift_step h x = (h ++ [x]).tail := by
        rw [drift_step_spec, if_pos hc]
      have hlen : (AutonomyDriftMonitor.drift_step h x).length = 100 := by
        rw [hstep, List.length_tail, List.length_append]
        simp [h100]
      rw [ih _ (le_of_eq hlen)]
      rcases h with _ | ⟨y, h'⟩
      · simp at h100
      · have hlen' : h'.length = 99 := by simpa using h100
        rw [hstep]
        have e1 : ((y :: h') ++ [x]).tail = h' ++ [x] := by simp
        rw [e1]
        have i1 : (h' ++ [x]).length + t.length - 100 = t.length := by
          simp [hlen']
        have i2 : (y :: h').length + (x :: t).length - 100 = t.length + 1 := by
          simp [hlen', List.length_cons]
        rw [i1, i2]
        have e2 : (h' ++ [x]) ++ t = h' ++ x :: t := by simp
        rw [e2, List.cons_append, List.drop_succ_cons]
    · have hstep : AutonomyDriftMonitor.drift_step h x = h ++ [x] := by
        rw [drift_step_spec, if_neg hc]
      have hlen : (AutonomyDriftMonitor.drift_step h x).length ≤ 100 := by
        rw [hstep, List.length_append]
        simp
        omega
      rw [ih _ hlen, hstep]
      have e2 : (h ++ [x]) ++ t = h ++ x :: t := by simp
      rw [e2]
      congr 1
      simp only [List.length_append, List.length_cons, List.length_nil]
      omega

/-- C9: from a fresh monitor, the drift history after any call sequence is
exactly the most recent min(n, 100) samples in arrival order, so it never
holds more than 100 entries; each call appends the new index and evicts the
oldest entry once the history exceeds 100. -/
theorem drift_history_bound (samples : List ℚ) :
    AutonomyDriftMonitor.drift_run samples =
      samples.drop (samples.length - 100) ∧
    (AutonomyDriftMonitor.drift_run samples).length = min samples.length 100 ∧
    (AutonomyDriftMonitor.drift_run samples).length ≤ 100 := by
  have h := drift_run_aux samples [] (by simp)
  have h0 : AutonomyDriftMonitor.drift_run samples =
      samples.drop (samples.length - 100) := by
    simpa [AutonomyDriftMonitor.drift_run] using h
  refine ⟨h0, ?_, ?_⟩
  · rw [h0, List.length_drop]
    omega
  · rw [h0, List.length_drop]
    omega

/-- The floored modulo equals the divisor times the fractional part of the
quotient. -/
theorem pyFloorModReal_eq_fract (x m : ℝ) (hm : m ≠ 0) :
    StateVectorInterpreter.pyFloorModReal x m = m * Int.fract (x / m) := by
  unfold StateVectorInterpreter.pyFloorModReal Int.fract
  rw [mul_sub, mul_div_cancel₀ x hm]

/-- The phase quadrant is the floor of four times the fractional part of
phi over the full turn. -/
theorem get_phase_quadrant_eq_fract (phi : ℝ) :
    StateVectorInterpreter.get_phase_quadrant phi =
      Int.floor (4 * Int.fract (phi / (2 * Real.pi))) := by
  have h2pi : (2 : ℝ) * Real.pi ≠ 0 := by
    have := Real.pi_ne_zero
    positivity
  have hlet : StateVectorInterpreter.get_phase_quadrant phi =
      Int.floor ((2 * Real.pi * Int.fract (phi / (2 * Real.pi))) / (Real.pi / 2)) := by
    unfold StateVectorInterpreter.get_phase_quadrant
    rw [pyFloorModReal_eq_fract _ _ h2pi]
  rw [hlet]
  congr 1
  have hhalf : Real.pi / 2 ≠ 0 := div_ne_zero Real.pi_ne_zero two_ne_zero
  rw [div_eq_iff hhalf]
  ring

/-- C7: the phase quadrant is invariant under full turns (phi plus any
integer multiple of two pi), it always lies in 0..3, and the floored-modulo
normalisation puts the angle in the interval from 0 up to but excluding two
pi. -/
theorem get_phase_quadrant_periodic (phi : ℝ) (k : ℤ) :
    StateVectorInterpreter.get_phase_quadrant (phi + 2 * Real.pi * k) =
      StateVectorInterpreter.get_phase_quadrant phi ∧
    (0 ≤ StateVectorInterpreter.pyFloorModReal phi (2 * Real.pi) ∧
      StateVectorInterpreter.pyFloorModReal phi (2 * Real.pi) < 2 * Real.pi) ∧
    (StateVectorInterpreter.get_phase_quadrant phi = 0 ∨
      StateVectorInterpreter.get_phase_quadrant phi = 1 ∨
      StateVectorInterpreter.get_phase_quadrant phi = 2 ∨
      StateVectorInterpreter.get_phase_quadrant phi = 3) := by
  have h2pi0 : (0 : ℝ) < 2 * Real.pi := by
    have := Real.pi_pos
    linarith
  have h2pi : (2 : ℝ) * Real.pi ≠ 0 := ne_of_gt h2pi0
  have hfr0 : 0 ≤ Int.fract (phi / (2 * Real.pi)) := Int.fract_nonneg _
  have hfr1 : Int.fract (phi / (2 * Real.pi)) < 1 := Int.fract_lt_one _
  refine ⟨?_, ⟨?_, ?_⟩, ?_⟩
  · rw [get_phase_quadrant_eq_fract, get_phase_quadrant_eq_fract]
    have hq : (phi + 2 * Real.pi * k) / (2 * Real.pi) =
        phi / (2 * Real.pi) + (k : ℝ) := by
      rw [add_div, mul_div_cancel_left₀ _ h2pi]
    rw [hq, Int.fract_add_int]
  · rw [pyFloorModReal_eq_fract _ _ h2pi]
    positivity
  · rw [pyFloorModReal_eq_fract _ _ h2pi]
    calc 2 * Real.pi * Int.fract (phi / (2 * Real.pi)) <
        2 * Real.pi * 1 := by
          exact mul_lt_mul_of_pos_left hfr1 h2pi0
      _ = 2 * Real.pi := mul_one _
  · rw [get_phase_quadrant_eq_fract]
    have hlo : (0 : ℤ) ≤ Int.floor (4 * Int.fract (phi / (2 * Real.pi))) := by
      apply Int.floor_nonneg.mpr
      positivity
    have hhi : Int.floor (4 * Int.fract (phi / (2 * Real.pi))) < 4 := by
      apply Int.floor_lt.mpr
      push_cast
      linarith
    omega

set_option maxRecDepth 100000 in
/-- C2 (code behaviour at the failing input): parse catches malformed text
and missing top-level fields, including a missing autonomyIndex, and skips
blank lines; but a record whose stateVector object lacks a required nested
field makes the StateVector construction raise TypeError, which parse does
not catch, so the fault propagates to the caller instead of yielding none. -/
theorem parse_typeerror_escape :
    TokenPixelDeserializer.parse badPixelLine = .error .typeError ∧
    TokenPixelDeserializer.parse missingAutonomyLine = .ok none ∧
    TokenPixelDeserializer.parse malformedLine = .ok none ∧
    TokenPixelDeserializer.parse "   " = .ok none :=
  ⟨rfl, rfl, rfl, rfl⟩
